import Mathlib

/-!
Shallow embedding of the combat core of the Wukong Survivors repository
(adversary entity and spawner from the enemy module; attack modules,
attack-module manager and synergy evaluator from `src/game/weapon.ts`),
together with theorems settling the specification claims about it.

Conventions: JavaScript numbers are modelled as exact rationals (`ℚ`) for
stats, timers and damage, and as reals (`ℝ`) for screen positions, where the
trigonometric spawn placement lives.  Visual-only effects (tints, sprite
sizing, logging) are not part of the state.
-/

namespace WukongSurvivors

/-! ### Geometry -/

/-- A 2D position (also used for velocities). -/
structure Pos where
  x : ℝ
  y : ℝ

/-- Euclidean distance between two positions
(`Phaser.Math.Distance.Between`). -/
noncomputable def distBetween (a b : Pos) : ℝ :=
  Real.sqrt ((b.x - a.x) ^ 2 + (b.y - a.y) ^ 2)

/-! ### Adversary entity (`Enemy` in `src/unnamed/part_008`) -/

/-- An experience pickup dropped on death
(`scene.spawnExperience(x, y, expValue)`). -/
structure ExperienceDrop where
  x : ℝ
  y : ℝ
  value : ℚ

/-- The `Enemy` class state.  Sprite/scene handles are dropped; the sprite's
position and velocity are kept as `pos`/`vel`. -/
structure Enemy where
  maxHealth : ℚ
  health : ℚ
  speed : ℚ
  damage : ℚ
  expValue : ℚ
  goldValue : ℚ
  isDead : Bool
  pos : Pos
  vel : Pos

/-- `Enemy.update(playerPos)`: no-op when dead, otherwise set velocity along
the unit vector toward the player (when the distance is positive). -/
noncomputable def Enemy.seek (playerPos : Pos) (e : Enemy) : Enemy :=
  if e.isDead then e
  else
    let dx := playerPos.x - e.pos.x
    let dy := playerPos.y - e.pos.y
    let distance := Real.sqrt (dx * dx + dy * dy)
    if 0 < distance then
      { e with vel := ⟨dx / distance * (e.speed : ℝ), dy / distance * (e.speed : ℝ)⟩ }
    else e

/-- `Enemy.die()`: guarded by `isDead`, marks the enemy dead and drops one
experience pickup at the enemy's position (sprite destruction is visual). -/
def Enemy.die (e : Enemy) : Enemy × List ExperienceDrop :=
  if e.isDead then (e, [])
  else ({ e with isDead := true }, [⟨e.pos.x, e.pos.y, e.expValue⟩])

/-- `Enemy.takeDamage(damage)`: returns the new state, whether the hit was
lethal, and the pickups spawned.  The white-tint feedback and its delayed
clear are visual only and carry no model state. -/
def Enemy.takeDamage (e : Enemy) (damage : ℚ) : Enemy × Bool × List ExperienceDrop :=
  if e.isDead then (e, false, [])
  else
    let e1 := { e with health := e.health - damage }
    if e1.health ≤ 0 then
      let d := e1.die
      (d.1, true, d.2)
    else (e1, false, [])

/-- A concrete live adversary with 10 health used in witnesses. -/
def enemyTen : Enemy :=
  { maxHealth := 10, health := 10, speed := 50, damage := 5, expValue := 2
    goldValue := 1, isDead := false, pos := ⟨0, 0⟩, vel := ⟨0, 0⟩ }

/-- C4: `takeDamage` with a nonnegative amount never increases health; a call
on an already-dead adversary returns the state unchanged, spawns no pickup and
reports a non-lethal hit (so death happens at most once); and a live adversary
whose health does not exceed the damage dies, reported lethal, spawning
exactly one pickup. -/
theorem C4_takeDamage_once (e : Enemy) (d : ℚ) (hd : 0 ≤ d) :
    (e.takeDamage d).1.health ≤ e.health
    ∧ (e.isDead = true → e.takeDamage d = (e, false, []))
    ∧ (e.isDead = false → e.health ≤ d →
        (e.takeDamage d).1.isDead = true ∧ (e.takeDamage d).2.1 = true
          ∧ (e.takeDamage d).2.2.length = 1)
    ∧ ((e.takeDamage d).1.isDead = true → ((e.takeDamage d).1.takeDamage d).2.2 = []) := by
  unfold Enemy.takeDamage Enemy.die
  rcases e with ⟨mh, h, sp, dm, xp, gp, dead, p, v⟩
  cases dead <;> simp <;> split <;> simp <;> first | linarith | simp_all

/-- C4 witness: an adversary with health 10 taking damage 15 dies, lethally,
with exactly one pickup; the claim's hypotheses hold at this input. -/
theorem C4_takeDamage_once_witness :
    (0 : ℚ) ≤ 15 ∧ enemyTen.isDead = false ∧ enemyTen.health ≤ 15
    ∧ ((enemyTen.takeDamage 15).1.isDead = true ∧ (enemyTen.takeDamage 15).2.1 = true
        ∧ (enemyTen.takeDamage 15).2.2.length = 1) :=
  ⟨by norm_num, rfl, by norm_num [enemyTen],
    (C4_takeDamage_once enemyTen 15 (by norm_num)).2.2.1 rfl (by norm_num [enemyTen])⟩

/-! ### Adversary spawner (`EnemySpawner` in `src/unnamed/part_008`)

`selectEnemyType` draws from `ENEMIES_DATA` (a constants file outside the
combat core) with its own random rolls; the stats of the adversary chosen for
the `i`-th spawn of a wave are supplied as an input stream `stats`, and the
two uniform draws of `spawnEnemy` (angle fraction, distance fraction) as an
input stream `rnd`. -/

/-- Stats a spawned adversary receives from `ENEMIES_DATA[enemyType]`. -/
structure EnemyStats where
  health : ℚ
  speed : ℚ
  damage : ℚ
  xpValue : ℚ
  goldValue : ℚ

/-- Mutable state of `EnemySpawner`. -/
structure EnemySpawner where
  enemies : List Enemy
  spawnTimer : ℚ
  spawnInterval : ℚ
  baseSpawnInterval : ℚ
  enemiesPerWave : ℕ
  maxEnemiesOnScreen : ℕ
  difficultyTimer : ℚ
  gameTime : ℚ
  minSpawnDistance : ℝ
  maxSpawnDistance : ℝ

/-- The `EnemySpawner` constructor state. -/
def initEnemySpawner : EnemySpawner :=
  { enemies := [], spawnTimer := 0, spawnInterval := 1500, baseSpawnInterval := 1500
    enemiesPerWave := 2, maxEnemiesOnScreen := 100, difficultyTimer := 0, gameTime := 0
    minSpawnDistance := 500, maxSpawnDistance := 700 }

/-- `increaseDifficulty()`: +1 wave size capped at 10, −100ms interval floored
at 500, +20 screen cap capped at 300. -/
def increaseDifficulty (s : EnemySpawner) : EnemySpawner :=
  { s with
    enemiesPerWave := min 10 (s.enemiesPerWave + 1)
    spawnInterval := max 500 (s.spawnInterval - 100)
    maxEnemiesOnScreen := min 300 (s.maxEnemiesOnScreen + 20) }

/-- `spawnEnemy(playerPos)`: ring placement around the player; `r.1` and `r.2`
are the two `Math.random()` draws, the spawned adversary takes the stats of
the selected type and starts alive. -/
noncomputable def spawnEnemy (s : EnemySpawner) (playerPos : Pos) (r : ℝ × ℝ)
    (st : EnemyStats) : Enemy :=
  let angle := r.1 * Real.pi * 2
  let distance := s.minSpawnDistance + r.2 * (s.maxSpawnDistance - s.minSpawnDistance)
  { maxHealth := st.health, health := st.health, speed := st.speed, damage := st.damage
    expValue := st.xpValue, goldValue := st.goldValue, isDead := false
    pos := ⟨playerPos.x + Real.cos angle * distance, playerPos.y + Real.sin angle * distance⟩
    vel := ⟨0, 0⟩ }

/-- `spawnWave(playerPos)`: wave size is `enemiesPerWave` times
`1 + floor(gameTime / 60000)`, clipped to remaining capacity; spawned
adversaries are pushed at the end of the roster. -/
noncomputable def spawnWave (s : EnemySpawner) (playerPos : Pos) (rnd : ℕ → ℝ × ℝ)
    (stats : ℕ → EnemyStats) : EnemySpawner :=
  let timeBasedMultiplier := 1 + (Int.floor (s.gameTime / 60000)).toNat
  let spawnCount := min (s.enemiesPerWave * timeBasedMultiplier)
    (s.maxEnemiesOnScreen - s.enemies.length)
  { s with enemies :=
      s.enemies ++ (List.range spawnCount).map (fun i => spawnEnemy s playerPos (rnd i) (stats i)) }

/-- `update`, stage 1: `this.gameTime += delta`. -/
def stepTime (s : EnemySpawner) (delta : ℚ) : EnemySpawner :=
  { s with gameTime := s.gameTime + delta }

/-- `update`, stage 2: advance each live adversary toward the player
(`Enemy.seek` is itself a no-op on dead ones, mirroring the `forEach` guard). -/
noncomputable def stepMove (s : EnemySpawner) (playerPos : Pos) : EnemySpawner :=
  { s with enemies := s.enemies.map (Enemy.seek playerPos) }

/-- `update`, stage 3: clean up dead adversaries. -/
def stepFilterDead (s : EnemySpawner) : EnemySpawner :=
  { s with enemies := s.enemies.filter (fun e => !e.isDead) }

/-- `update`, stage 4: only when under the cap, accumulate the spawn timer and
on crossing `spawnInterval` reset it and spawn a wave. -/
noncomputable def stepSpawn (s : EnemySpawner) (delta : ℚ) (playerPos : Pos)
    (rnd : ℕ → ℝ × ℝ) (stats : ℕ → EnemyStats) : EnemySpawner :=
  if s.enemies.length < s.maxEnemiesOnScreen then
    let s1 := { s with spawnTimer := s.spawnTimer + delta }
    if s1.spawnInterval ≤ s1.spawnTimer then
      spawnWave { s1 with spawnTimer := 0 } playerPos rnd stats
    else s1
  else s

/-- `update`, stage 5: accumulate the difficulty timer and every 30000ms reset
it and increase difficulty. -/
def stepDifficulty (s : EnemySpawner) (delta : ℚ) : EnemySpawner :=
  let s1 := { s with difficultyTimer := s.difficultyTimer + delta }
  if 30000 ≤ s1.difficultyTimer then increaseDifficulty { s1 with difficultyTimer := 0 }
  else s1

/-- `EnemySpawner.update(_time, delta, playerPos)` as the composition of its
five sequential stages. -/
noncomputable def spawnerUpdate (s : EnemySpawner) (delta : ℚ) (playerPos : Pos)
    (rnd : ℕ → ℝ × ℝ) (stats : ℕ → EnemyStats) : EnemySpawner :=
  stepDifficulty (stepSpawn (stepFilterDead (stepMove (stepTime s delta) playerPos))
    delta playerPos rnd stats) delta

/-- A spawned adversary sits at ring distance `min + r.2·(max − min)` from the
player; with draws in `[0,1)` and the constructor's 500/700 ring this lies in
`[500, 700]`. -/
theorem spawnEnemy_dist (s : EnemySpawner) (p : Pos) (r : ℝ × ℝ) (st : EnemyStats)
    (h500 : s.minSpawnDistance = 500) (h700 : s.maxSpawnDistance = 700)
    (h0 : 0 ≤ r.2) (h1 : r.2 < 1) :
    500 ≤ distBetween p (spawnEnemy s p r st).pos
      ∧ distBetween p (spawnEnemy s p r st).pos ≤ 700 := by
  have hd : (0 : ℝ) ≤ 500 + r.2 * 200 := by nlinarith
  have key : distBetween p (spawnEnemy s p r st).pos = 500 + r.2 * 200 := by
    simp only [distBetween, spawnEnemy, h500, h700]
    have trig : Real.cos (r.1 * Real.pi * 2) ^ 2 + Real.sin (r.1 * Real.pi * 2) ^ 2 = 1 :=
      Real.cos_sq_add_sin_sq _
    have expand :
        (p.x + Real.cos (r.1 * Real.pi * 2) * (500 + r.2 * (700 - 500)) - p.x) ^ 2
          + (p.y + Real.sin (r.1 * Real.pi * 2) * (500 + r.2 * (700 - 500)) - p.y) ^ 2
          = (500 + r.2 * 200) ^ 2 := by nlinarith [trig]
    rw [expand, Real.sqrt_sq hd]
  constructor
  · rw [key]; nlinarith
  · rw [key]; nlinarith

/-- The spawn stage leaves every field but `enemies` and `spawnTimer`
unchanged. -/
theorem stepSpawn_fields (s : EnemySpawner) (delta : ℚ) (p : Pos)
    (rnd : ℕ → ℝ × ℝ) (stats : ℕ → EnemyStats) :
    (stepSpawn s delta p rnd stats).spawnInterval = s.spawnInterval
    ∧ (stepSpawn s delta p rnd stats).enemiesPerWave = s.enemiesPerWave
    ∧ (stepSpawn s delta p rnd stats).maxEnemiesOnScreen = s.maxEnemiesOnScreen
    ∧ (stepSpawn s delta p rnd stats).difficultyTimer = s.difficultyTimer
    ∧ (stepSpawn s delta p rnd stats).minSpawnDistance = s.minSpawnDistance
    ∧ (stepSpawn s delta p rnd stats).maxSpawnDistance = s.maxSpawnDistance := by
  unfold stepSpawn spawnWave
  split
  · dsimp only
    split <;> simp
  · simp

/-- The difficulty stage never touches the roster. -/
theorem stepDifficulty_enemies (s : EnemySpawner) (delta : ℚ) :
    (stepDifficulty s delta).enemies = s.enemies := by
  unfold stepDifficulty increaseDifficulty
  dsimp only
  split <;> simp

/-- Roster size after the spawn stage: bounded by the cap whenever it was
bounded before. -/
theorem stepSpawn_length_le (s : EnemySpawner) (delta : ℚ) (p : Pos)
    (rnd : ℕ → ℝ × ℝ) (stats : ℕ → EnemyStats)
    (hlen : s.enemies.length ≤ s.maxEnemiesOnScreen) :
    (stepSpawn s delta p rnd stats).enemies.length ≤ s.maxEnemiesOnScreen := by
  unfold stepSpawn spawnWave
  split
  · dsimp only
    split <;> simp <;> omega
  · simpa using hlen

/-- Every roster member after the spawn stage is an old member or a fresh
spawn of this wave placed by `spawnEnemy` with this tick's draws. -/
theorem stepSpawn_mem (s : EnemySpawner) (delta : ℚ) (p : Pos)
    (rnd : ℕ → ℝ × ℝ) (stats : ℕ → EnemyStats) (e : Enemy)
    (he : e ∈ (stepSpawn s delta p rnd stats).enemies) :
    e ∈ s.enemies
    ∨ ∃ i, e = spawnEnemy { s with spawnTimer := 0 } p (rnd i) (stats i) := by
  unfold stepSpawn spawnWave at he
  split at he
  · dsimp only at he
    split at he
    · simp only [List.mem_append, List.mem_map, List.mem_range] at he
      rcases he with he | ⟨i, _, hi⟩
      · exact Or.inl (by simpa using he)
      · exact Or.inr ⟨i, hi.symm⟩
    · exact Or.inl (by simpa using he)
  · exact Or.inl he

/-- C5: a spawner tick keeps the roster within `maxEnemiesOnScreen` (which
itself stays within its 300 cap), and every adversary present afterwards is
either a carried-over live one or was placed at distance in `[500, 700]` from
the player.  The hypotheses are the constructor-established invariants. -/
theorem C5_spawner_cap_and_ring (s : EnemySpawner) (delta : ℚ) (p : Pos)
    (rnd : ℕ → ℝ × ℝ) (stats : ℕ → EnemyStats)
    (hlen : s.enemies.length ≤ s.maxEnemiesOnScreen)
    (hcap : s.maxEnemiesOnScreen ≤ 300)
    (h500 : s.minSpawnDistance = 500) (h700 : s.maxSpawnDistance = 700)
    (hr : ∀ i, 0 ≤ (rnd i).2 ∧ (rnd i).2 < 1) :
    (spawnerUpdate s delta p rnd stats).enemies.length
        ≤ (spawnerUpdate s delta p rnd stats).maxEnemiesOnScreen
    ∧ (spawnerUpdate s delta p rnd stats).maxEnemiesOnScreen ≤ 300
    ∧ ∀ e ∈ (spawnerUpdate s delta p rnd stats).enemies,
        (e ∈ ((s.enemies.map (Enemy.seek p)).filter (fun e => !e.isDead))
          ∨ (500 ≤ distBetween p e.pos ∧ distBetween p e.pos ≤ 700)) := by
  set X := stepFilterDead (stepMove (stepTime s delta) p) with hX
  have hXenemies : X.enemies = (s.enemies.map (Enemy.seek p)).filter (fun e => !e.isDead) := rfl
  have hXcap : X.maxEnemiesOnScreen = s.maxEnemiesOnScreen := rfl
  have hXmin : X.minSpawnDistance = s.minSpawnDistance := rfl
  have hXmax : X.maxSpawnDistance = s.maxSpawnDistance := rfl
  have hXlen : X.enemies.length ≤ X.maxEnemiesOnScreen := by
    rw [hXenemies, hXcap]
    calc ((s.enemies.map (Enemy.seek p)).filter (fun e => !e.isDead)).length
        ≤ (s.enemies.map (Enemy.seek p)).length := List.length_filter_le _ _
      _ = s.enemies.length := List.length_map _ _
      _ ≤ s.maxEnemiesOnScreen := hlen
  set Y := stepSpawn X delta p rnd stats with hY
  have hYlen : Y.enemies.length ≤ X.maxEnemiesOnScreen :=
    stepSpawn_length_le X delta p rnd stats hXlen
  have hYcap : Y.maxEnemiesOnScreen = X.maxEnemiesOnScreen :=
    (stepSpawn_fields X delta p rnd stats).2.2.1
  have hZ : spawnerUpdate s delta p rnd stats = stepDifficulty Y delta := rfl
  refine ⟨?_, ?_, ?_⟩
  · rw [hZ, stepDifficulty_enemies]
    unfold stepDifficulty
    dsimp only
    split
    · simp only [increaseDifficulty]
      rw [hXcap] at hYlen hYcap
      omega
    · simpa [hYcap, hXcap] using hYlen
  · rw [hZ]
    unfold stepDifficulty
    dsimp only
    split
    · simp only [increaseDifficulty]
      omega
    · simpa [hYcap, hXcap] using hcap
  · intro e he
    rw [hZ, stepDifficulty_enemies] at he
    rcases stepSpawn_mem X delta p rnd stats e he with hold | ⟨i, hi⟩
    · exact Or.inl (by rwa [hXenemies] at hold)
    · refine Or.inr ?_
      subst hi
      exact spawnEnemy_dist _ p (rnd i) (stats i) (by simpa [hXmin] using h500)
        (by simpa [hXmax] using h700) (hr i).1 (hr i).2

/-- C5 witness: one tick of a fresh spawner with 1500ms elapsed, distance
draws at one half, satisfies every hypothesis and hence the cap and the ring
bound. -/
theorem C5_spawner_cap_and_ring_witness :
    initEnemySpawner.enemies.length ≤ initEnemySpawner.maxEnemiesOnScreen
    ∧ initEnemySpawner.maxEnemiesOnScreen ≤ 300
    ∧ (spawnerUpdate initEnemySpawner 1500 ⟨0, 0⟩ (fun _ => ((0 : ℝ), (1 / 2 : ℝ)))
        (fun _ => ⟨10, 50, 5, 2, 1⟩)).enemies.length
        ≤ (spawnerUpdate initEnemySpawner 1500 ⟨0, 0⟩ (fun _ => ((0 : ℝ), (1 / 2 : ℝ)))
            (fun _ => ⟨10, 50, 5, 2, 1⟩)).maxEnemiesOnScreen :=
  ⟨by norm_num [initEnemySpawner], by norm_num [initEnemySpawner],
    (C5_spawner_cap_and_ring initEnemySpawner 1500 ⟨0, 0⟩ _ _
      (by norm_num [initEnemySpawner]) (by norm_num [initEnemySpawner]) rfl rfl
      (fun i => by norm_num)).1⟩

/-- Projections of the first three update stages: only `gameTime` (by `delta`)
and the roster change. -/
theorem prepStages_fields (s : EnemySpawner) (delta : ℚ) (p : Pos) :
    (stepFilterDead (stepMove (stepTime s delta) p)).spawnTimer = s.spawnTimer
    ∧ (stepFilterDead (stepMove (stepTime s delta) p)).spawnInterval = s.spawnInterval
    ∧ (stepFilterDead (stepMove (stepTime s delta) p)).enemiesPerWave = s.enemiesPerWave
    ∧ (stepFilterDead (stepMove (stepTime s delta) p)).maxEnemiesOnScreen = s.maxEnemiesOnScreen
    ∧ (stepFilterDead (stepMove (stepTime s delta) p)).difficultyTimer = s.difficultyTimer
    ∧ (stepFilterDead (stepMove (stepTime s delta) p)).gameTime = s.gameTime + delta :=
  ⟨rfl, rfl, rfl, rfl, rfl, rfl⟩

/-- C8: on a tick where the post-cleanup population is below the cap and the
accumulated spawn timer crosses `spawnInterval`, the roster grows by exactly
`min(enemiesPerWave · (1 + floor(elapsedMinutes)), cap − population)`, where
elapsed minutes are taken after adding this tick's `delta` to the clock. -/
theorem C8_wave_size (s : EnemySpawner) (delta : ℚ) (p : Pos)
    (rnd : ℕ → ℝ × ℝ) (stats : ℕ → EnemyStats)
    (hL : ((s.enemies.map (Enemy.seek p)).filter (fun e => !e.isDead)).length
        < s.maxEnemiesOnScreen)
    (ht : s.spawnInterval ≤ s.spawnTimer + delta) :
    (spawnerUpdate s delta p rnd stats).enemies.length
      = ((s.enemies.map (Enemy.seek p)).filter (fun e => !e.isDead)).length
        + min (s.enemiesPerWave * (1 + (Int.floor ((s.gameTime + delta) / 60000)).toNat))
            (s.maxEnemiesOnScreen
              - ((s.enemies.map (Enemy.seek p)).filter (fun e => !e.isDead)).length) := by
  have step : spawnerUpdate s delta p rnd stats
      = stepDifficulty (stepSpawn (stepFilterDead (stepMove (stepTime s delta) p))
          delta p rnd stats) delta := rfl
  rw [step, stepDifficulty_enemies]
  unfold stepSpawn
  rw [if_pos (show (stepFilterDead (stepMove (stepTime s delta) p)).enemies.length
      < (stepFilterDead (stepMove (stepTime s delta) p)).maxEnemiesOnScreen from hL)]
  dsimp only
  rw [if_pos (show (stepFilterDead (stepMove (stepTime s delta) p)).spawnInterval
      ≤ (stepFilterDead (stepMove (stepTime s delta) p)).spawnTimer + delta from ht)]
  unfold spawnWave
  dsimp only
  simp [stepFilterDead, stepMove, stepTime]

/-- C8 witness (scenario A): a fresh spawner — interval 1500ms, 2 per wave,
elapsed minutes 0, empty roster — run for one 1500ms tick spawns exactly 2
adversaries. -/
theorem C8_wave_size_witness :
    (spawnerUpdate initEnemySpawner 1500 ⟨0, 0⟩ (fun _ => ((0 : ℝ), (0 : ℝ)))
      (fun _ => ⟨10, 50, 5, 2, 1⟩)).enemies.length = 2 := by
  have h := C8_wave_size initEnemySpawner 1500 ⟨0, 0⟩ (fun _ => ((0 : ℝ), (0 : ℝ)))
    (fun _ => ⟨10, 50, 5, 2, 1⟩) (by simp [initEnemySpawner]) (by norm_num [initEnemySpawner])
  have hfloor : (Int.floor (((initEnemySpawner.gameTime + 1500) : ℚ) / 60000)).toNat = 0 := by
    norm_num [initEnemySpawner]
  rw [h, hfloor]
  simp [initEnemySpawner]

/-- C9: the spawner's difficulty parameters start at 1500ms / 2 per wave /
100 on screen; each 30-second step lowers the interval by the fixed 100ms but
never below 500ms, raises the wave size by 1 up to 10, and raises the screen
cap up to 300 — monotonically under the constructor-established invariants —
and a tick applies the step exactly when the accumulated difficulty timer
reaches 30000ms. -/
theorem C9_difficulty_params (s : EnemySpawner)
    (hint : 500 ≤ s.spawnInterval) (hw : s.enemiesPerWave ≤ 10)
    (hm : s.maxEnemiesOnScreen ≤ 300) :
    (initEnemySpawner.spawnInterval = 1500 ∧ initEnemySpawner.baseSpawnInterval = 1500
      ∧ initEnemySpawner.enemiesPerWave = 2 ∧ initEnemySpawner.maxEnemiesOnScreen = 100)
    ∧ ((increaseDifficulty s).spawnInterval = max 500 (s.spawnInterval - 100)
        ∧ 500 ≤ (increaseDifficulty s).spawnInterval
        ∧ (increaseDifficulty s).spawnInterval ≤ s.spawnInterval)
    ∧ ((increaseDifficulty s).enemiesPerWave = min 10 (s.enemiesPerWave + 1)
        ∧ s.enemiesPerWave ≤ (increaseDifficulty s).enemiesPerWave
        ∧ (increaseDifficulty s).enemiesPerWave ≤ 10)
    ∧ ((increaseDifficulty s).maxEnemiesOnScreen = min 300 (s.maxEnemiesOnScreen + 20)
        ∧ s.maxEnemiesOnScreen ≤ (increaseDifficulty s).maxEnemiesOnScreen
        ∧ (increaseDifficulty s).maxEnemiesOnScreen ≤ 300)
    ∧ (∀ (delta : ℚ) (p : Pos) (rnd : ℕ → ℝ × ℝ) (stats : ℕ → EnemyStats),
        (spawnerUpdate s delta p rnd stats).spawnInterval
          = (if 30000 ≤ s.difficultyTimer + delta then max 500 (s.spawnInterval - 100)
             else s.spawnInterval)
        ∧ (spawnerUpdate s delta p rnd stats).enemiesPerWave
          = (if 30000 ≤ s.difficultyTimer + delta then min 10 (s.enemiesPerWave + 1)
             else s.enemiesPerWave)) := by
  refine ⟨⟨rfl, rfl, rfl, rfl⟩, ⟨rfl, le_max_left _ _, max_le hint (by linarith)⟩,
    ⟨rfl, by simp [increaseDifficulty]; omega, by simp [increaseDifficulty]⟩,
    ⟨rfl, by simp [increaseDifficulty]; omega, by simp [increaseDifficulty]⟩, ?_⟩
  intro delta p rnd stats
  have hf := stepSpawn_fields (stepFilterDead (stepMove (stepTime s delta) p)) delta p rnd stats
  have hp := prepStages_fields s delta p
  have step : spawnerUpdate s delta p rnd stats
      = stepDifficulty (stepSpawn (stepFilterDead (stepMove (stepTime s delta) p))
          delta p rnd stats) delta := rfl
  rw [step]
  unfold stepDifficulty increaseDifficulty
  dsimp only
  rw [hf.2.2.2.1, hp.2.2.2.2.1]
  constructor
  · split <;> simp [hf.1, hp.2.1]
  · split <;> simp [hf.2.1, hp.2.2.1]

/-- C9 witness: the constructor state satisfies the invariants; its first
difficulty step yields interval 1400ms, 3 per wave, cap 120. -/
theorem C9_difficulty_params_witness :
    ((500 : ℚ) ≤ initEnemySpawner.spawnInterval ∧ initEnemySpawner.enemiesPerWave ≤ 10
      ∧ initEnemySpawner.maxEnemiesOnScreen ≤ 300)
    ∧ (increaseDifficulty initEnemySpawner).spawnInterval
        = max 500 (initEnemySpawner.spawnInterval - 100) :=
  ⟨⟨by norm_num [initEnemySpawner], by norm_num [initEnemySpawner],
      by norm_num [initEnemySpawner]⟩,
    (C9_difficulty_params initEnemySpawner (by norm_num [initEnemySpawner])
      (by norm_num [initEnemySpawner]) (by norm_num [initEnemySpawner])).2.1.1⟩

/-! ### Attack modules (`src/src/game/weapon.ts`)

The abstract `Weapon` base class carries `level`, `maxLevel` (5), `damage`,
`coolDown` and `lastFired`; its `update` fires and resets the timer when the
cooldown has elapsed, and its `upgrade` increments the level below the cap and
then applies the variant's `applyUpgrade`. -/

/-- The base-class fields shared by every attack module. -/
structure WeaponCore where
  level : ℕ
  maxLevel : ℕ
  damage : ℚ
  coolDown : ℚ
  lastFired : ℚ

/-- The inherited `Weapon.update(time, enemies)` (lines 53–58): when
`time − lastFired ≥ coolDown` it calls `fire` and sets `lastFired = time`.
The Boolean records whether `fire` was invoked; variant-specific `fire`
effects are modelled on the concrete variants below. -/
def weaponUpdateCore (w : WeaponCore) (time : ℚ) : WeaponCore × Bool :=
  if w.coolDown ≤ time - w.lastFired then ({ w with lastFired := time }, true)
  else (w, false)

/-- A fired projectile (damage and pierce budget; timeout is external). -/
structure Projectile where
  pos : Pos
  vel : Pos
  damage : ℚ
  piercing : ℕ

/-- `Weapon.getClosestEnemy(enemies)`: scans the list keeping the first
strictly-closer live enemy; `minDist` starts at `Infinity`, modelled by
`none`. -/
noncomputable def getClosestEnemy (playerPos : Pos) (enemies : List Enemy) : Option Enemy :=
  if enemies.length = 0 then none
  else
    (enemies.foldl
      (fun (acc : Option Enemy × Option ℝ) e =>
        if e.isDead then acc
        else
          let dist := distBetween playerPos e.pos
          match acc.2 with
          | none => (some e, some dist)
          | some m => if dist < m then (some e, some dist) else acc)
      (none, none)).1

/-- `GoldenStaff` state: base fields plus `projectileSpeed` and `piercing`. -/
structure GoldenStaff where
  level : ℕ
  maxLevel : ℕ
  damage : ℚ
  coolDown : ℚ
  lastFired : ℚ
  projectileSpeed : ℚ
  piercing : ℕ

/-- The `GoldenStaff` constructor state (damage 15, cooldown 1000ms,
projectile speed 300, piercing 1). -/
def initGoldenStaff : GoldenStaff :=
  { level := 1, maxLevel := 5, damage := 15, coolDown := 1000, lastFired := 0
    projectileSpeed := 300, piercing := 1 }

/-- `GoldenStaff.fire(enemies)`: silent no-op with no eligible target,
otherwise one projectile from the player toward the nearest enemy.  (JS
divides by the distance, `Infinity` on a zero distance; Lean's `x / 0 = 0` —
irrelevant to the claims proved here.) -/
noncomputable def goldenStaffFire (w : GoldenStaff) (playerPos : Pos)
    (enemies : List Enemy) : List Projectile :=
  if enemies.length = 0 then []
  else
    match getClosestEnemy playerPos enemies with
    | none => []
    | some target =>
        let dx := target.pos.x - playerPos.x
        let dy := target.pos.y - playerPos.y
        let distance := Real.sqrt (dx * dx + dy * dy)
        [{ pos := playerPos
           vel := ⟨dx / distance * (w.projectileSpeed : ℝ), dy / distance * (w.projectileSpeed : ℝ)⟩
           damage := w.damage, piercing := w.piercing }]

/-- `GoldenStaff`'s inherited `update`: the base cooldown gate around its
`fire`, returning (new state, whether `fire` ran, projectiles created). -/
noncomputable def goldenStaffUpdate (w : GoldenStaff) (time : ℚ) (enemies : List Enemy)
    (playerPos : Pos) : GoldenStaff × Bool × List Projectile :=
  if w.coolDown ≤ time - w.lastFired then
    ({ w with lastFired := time }, true, goldenStaffFire w playerPos enemies)
  else (w, false, [])

/-- `GoldenStaff.applyUpgrade()` (lines 165–174): +5 damage, −100ms cooldown
floored at 300, piercing raised to 2 from level 3 and 3 from level 5. -/
def goldenStaffApplyUpgrade (w : GoldenStaff) : GoldenStaff :=
  let w1 := { w with damage := w.damage + 5, coolDown := max 300 (w.coolDown - 100) }
  let w2 := if 3 ≤ w1.level then { w1 with piercing := 2 } else w1
  if 5 ≤ w2.level then { w2 with piercing := 3 } else w2

/-- The inherited `Weapon.upgrade()` (lines 62–67) instantiated at
`GoldenStaff`: below the cap, increment the level then apply the variant
upgrade; otherwise do nothing. -/
def goldenStaffUpgrade (w : GoldenStaff) : GoldenStaff :=
  if w.level < w.maxLevel then goldenStaffApplyUpgrade { w with level := w.level + 1 }
  else w

/-- `applyUpgrade` leaves the level untouched. -/
theorem goldenStaffApplyUpgrade_level (w : GoldenStaff) :
    (goldenStaffApplyUpgrade w).level = w.level := by
  unfold goldenStaffApplyUpgrade
  dsimp only
  split <;> split <;> rfl

/-- Closed form of the stat changes of `applyUpgrade`. -/
theorem goldenStaffApplyUpgrade_stats (w : GoldenStaff) :
    (goldenStaffApplyUpgrade w).damage = w.damage + 5
    ∧ (goldenStaffApplyUpgrade w).coolDown = max 300 (w.coolDown - 100)
    ∧ (goldenStaffApplyUpgrade w).piercing
        = (if 5 ≤ w.level then 3 else if 3 ≤ w.level then 2 else w.piercing) := by
  unfold goldenStaffApplyUpgrade
  dsimp only
  split <;> split <;> simp_all

/-- C6: the module level never decreases, never exceeds `maxLevel` once below
it, and `upgrade()` at the cap is the identity; below the cap the level rises
by exactly 1, damage strictly improves, the cooldown never increases (and
stays at or above its 300ms floor), and piercing never decreases.  The two
hypotheses are the constructor-established invariants (base cooldown 1000 and
the level-indexed piercing value). -/
theorem C6_upgrade_monotone (w : GoldenStaff)
    (hcd : 300 ≤ w.coolDown)
    (hp : w.piercing = if 5 ≤ w.level then 3 else if 3 ≤ w.level then 2 else 1) :
    w.level ≤ (goldenStaffUpgrade w).level
    ∧ (w.level ≤ w.maxLevel → (goldenStaffUpgrade w).level ≤ w.maxLevel)
    ∧ (w.maxLevel ≤ w.level → goldenStaffUpgrade w = w)
    ∧ (w.level < w.maxLevel →
        (goldenStaffUpgrade w).level = w.level + 1
        ∧ w.damage < (goldenStaffUpgrade w).damage
        ∧ (goldenStaffUpgrade w).coolDown ≤ w.coolDown
        ∧ 300 ≤ (goldenStaffUpgrade w).coolDown
        ∧ w.piercing ≤ (goldenStaffUpgrade w).piercing) := by
  unfold goldenStaffUpgrade
  split
  · rename_i hlt
    have hlev : (goldenStaffApplyUpgrade { w with level := w.level + 1 }).level = w.level + 1 :=
      goldenStaffApplyUpgrade_level _
    have hst := goldenStaffApplyUpgrade_stats { w with level := w.level + 1 }
    refine ⟨by omega, fun _ => by omega, fun h => absurd hlt (by omega), fun _ => ?_⟩
    refine ⟨by omega, by rw [hst.1]; linarith, ?_, ?_, ?_⟩
    · rw [hst.2.1]
      exact max_le (by linarith) (by linarith)
    · rw [hst.2.1]
      exact le_max_left _ _
    · have hpeq : (goldenStaffApplyUpgrade { w with level := w.level + 1 }).piercing
          = if 5 ≤ w.level + 1 then 3 else if 3 ≤ w.level + 1 then 2 else w.piercing :=
        (goldenStaffApplyUpgrade_stats _).2.2
      rw [hpeq, hp]
      split_ifs <;> omega
  · exact ⟨le_refl _, fun h => h, fun _ => rfl, fun h => absurd h (by omega)⟩

/-- C6 witness: the constructor state satisfies both invariants, and one
upgrade from level 1 raises the level to 2, the damage to 20 and the cooldown
to 900. -/
theorem C6_upgrade_monotone_witness :
    (300 : ℚ) ≤ initGoldenStaff.coolDown
    ∧ initGoldenStaff.piercing
        = (if 5 ≤ initGoldenStaff.level then 3 else if 3 ≤ initGoldenStaff.level then 2 else 1)
    ∧ initGoldenStaff.level ≤ (goldenStaffUpgrade initGoldenStaff).level :=
  ⟨by norm_num [initGoldenStaff], by norm_num [initGoldenStaff],
    (C6_upgrade_monotone initGoldenStaff (by norm_num [initGoldenStaff])
      (by norm_num [initGoldenStaff])).1⟩

/-! ### `FireproofCloak` — an aura module that overrides `update` -/

/-- One revolving orb: fixed angular offset and current position. -/
structure OrbData where
  offset : ℝ
  pos : Pos

/-- `FireproofCloak` state: base fields plus orb data (lines 177–256). -/
structure FireproofCloak where
  level : ℕ
  maxLevel : ℕ
  damage : ℚ
  coolDown : ℚ
  lastFired : ℚ
  orbCount : ℕ
  radius : ℝ
  rotationSpeed : ℚ
  angle : ℚ
  orbs : List OrbData

/-- `createOrbs()`: one orb per `orbCount` at evenly spaced offsets. -/
noncomputable def fireproofCloakCreateOrbs (c : FireproofCloak) : FireproofCloak :=
  { c with orbs :=
      (List.range c.orbCount).map (fun i => ⟨Real.pi * 2 / (c.orbCount : ℝ) * (i : ℝ), ⟨0, 0⟩⟩) }

/-- The `FireproofCloak` constructor state (damage 8, cooldown 100ms, one orb,
radius 80 — the repository's own test mock makes `scaleValue` the identity). -/
noncomputable def initFireproofCloak : FireproofCloak :=
  fireproofCloakCreateOrbs
    { level := 1, maxLevel := 5, damage := 8, coolDown := 100, lastFired := 0
      orbCount := 1, radius := 80, rotationSpeed := 2, angle := 0, orbs := [] }

/-- `FireproofCloak.update(time, enemies)` (lines 223–234): the override only
advances the rotation angle and repositions the orbs around the player; it
never calls `fire` and never touches `lastFired`.  The Boolean records
whether `fire` was invoked — always `false`. -/
noncomputable def fireproofCloakUpdate (c : FireproofCloak) (_time : ℚ)
    (_enemies : List Enemy) (playerPos : Pos) : FireproofCloak × Bool :=
  let c1 := { c with angle := c.angle + c.rotationSpeed * (16 / 1000) }
  ({ c1 with orbs := c1.orbs.map (fun o =>
      ⟨o.offset, ⟨playerPos.x + Real.cos ((c1.angle : ℝ) + o.offset) * c1.radius,
                  playerPos.y + Real.sin ((c1.angle : ℝ) + o.offset) * c1.radius⟩⟩) }, false)

/-- C7 counterexample: at time 1000 the fresh cloak's cooldown (100ms) has
long elapsed, yet its overridden `update` does not invoke `fire` and does not
reset the firing timer — refuting "for every attack module, update invokes
fire and resets the timer iff the cooldown elapsed". -/
theorem C7_counterexample :
    initFireproofCloak.coolDown ≤ (1000 : ℚ) - initFireproofCloak.lastFired
    ∧ (fireproofCloakUpdate initFireproofCloak 1000 [] ⟨0, 0⟩).2 = false
    ∧ (fireproofCloakUpdate initFireproofCloak 1000 [] ⟨0, 0⟩).1.lastFired
        = initFireproofCloak.lastFired :=
  ⟨by norm_num [initFireproofCloak, fireproofCloakCreateOrbs], rfl, rfl⟩

/-- C7 amended: a module running the inherited `Weapon.update` invokes `fire`
and resets `lastFired` to `now` exactly when `now − lastFired ≥ cooldown`, and
is untouched otherwise; but `FireproofCloak` overrides `update` with an orbit
refresh that never invokes `fire` and never resets the timer. -/
theorem C7_cooldown_gate :
    (∀ (w : WeaponCore) (time : ℚ),
      ((weaponUpdateCore w time).2 = true ↔ w.coolDown ≤ time - w.lastFired)
      ∧ ((weaponUpdateCore w time).2 = true → (weaponUpdateCore w time).1.lastFired = time)
      ∧ ((weaponUpdateCore w time).2 = false → weaponUpdateCore w time = (w, false)))
    ∧ (∀ (c : FireproofCloak) (time : ℚ) (enemies : List Enemy) (p : Pos),
        (fireproofCloakUpdate c time enemies p).2 = false
        ∧ (fireproofCloakUpdate c time enemies p).1.lastFired = c.lastFired) := by
  constructor
  · intro w time
    unfold weaponUpdateCore
    split <;> simp_all
  · intro c time enemies p
    exact ⟨rfl, rfl⟩

/-- C10: when the cooldown has elapsed, the inherited `update` resets
`lastFired` to the current time even though `fire` on an empty target list
creates nothing; consequently the next attempt within a full cooldown of that
reset does not fire. -/
theorem C10_timer_resets_on_silent_fire (w : GoldenStaff) (t t' : ℚ)
    (enemies : List Enemy) (p : Pos)
    (h : w.coolDown ≤ t - w.lastFired) (h2 : t' - t < w.coolDown) :
    (goldenStaffUpdate w t [] p).2.2 = []
    ∧ (goldenStaffUpdate w t [] p).2.1 = true
    ∧ (goldenStaffUpdate w t [] p).1.lastFired = t
    ∧ (goldenStaffUpdate (goldenStaffUpdate w t [] p).1 t' enemies p).2.1 = false := by
  unfold goldenStaffUpdate
  rw [if_pos h]
  refine ⟨rfl, rfl, rfl, ?_⟩
  have hcd : ({ w with lastFired := t } : GoldenStaff).coolDown = w.coolDown := rfl
  rw [if_neg]
  simp only [hcd]
  linarith

/-- C10 witness: the fresh golden staff at time 1000 with no adversaries:
its cooldown (1000ms) has elapsed, no projectile is produced, the timer still
resets to 1000, and a retry at 1500 does not fire. -/
theorem C10_timer_resets_on_silent_fire_witness :
    initGoldenStaff.coolDown ≤ (1000 : ℚ) - initGoldenStaff.lastFired
    ∧ (1500 : ℚ) - 1000 < initGoldenStaff.coolDown
    ∧ ((goldenStaffUpdate initGoldenStaff 1000 [] ⟨0, 0⟩).2.2 = []
        ∧ (goldenStaffUpdate initGoldenStaff 1000 [] ⟨0, 0⟩).2.1 = true
        ∧ (goldenStaffUpdate initGoldenStaff 1000 [] ⟨0, 0⟩).1.lastFired = 1000
        ∧ (goldenStaffUpdate (goldenStaffUpdate initGoldenStaff 1000 [] ⟨0, 0⟩).1 1500 [] ⟨0, 0⟩).2.1
            = false) :=
  ⟨by norm_num [initGoldenStaff], by norm_num [initGoldenStaff],
    C10_timer_resets_on_silent_fire initGoldenStaff 1000 1500 [] ⟨0, 0⟩
      (by norm_num [initGoldenStaff]) (by norm_num [initGoldenStaff])⟩

/-! ### Attack-module manager (`WeaponManager`, lines 2919–2975) -/

/-- `WeaponManager.update(time, enemies)` runs
`this.weapons.forEach(w => w.update(time, enemies))`; this definition records
the argument pair each equipped weapon's `update` receives.  The manager
performs no filtering and builds no sorted copy, and `Weapon.update` takes a
single enemy list. -/
def weaponManagerForward (weapons : List WeaponCore) (time : ℚ)
    (enemies : List Enemy) : List (ℚ × List Enemy) :=
  weapons.map (fun _ => (time, enemies))

/-- A dead adversary used to exercise the manager's forwarding. -/
def deadEnemyTen : Enemy := { enemyTen with isDead := true }

/-- C2 counterexample: with one equipped module and a roster holding a single
dead adversary, the module's `update` receives that roster unchanged — the
dead adversary is not filtered out (and no second, sorted list exists in the
`update` signature at all). -/
theorem C2_counterexample :
    deadEnemyTen.isDead = true
    ∧ weaponManagerForward [⟨1, 5, 15, 1000, 0⟩] 0 [deadEnemyTen] = [(0, [deadEnemyTen])]
    ∧ [deadEnemyTen].filter (fun e => !e.isDead) = []
    ∧ ((0 : ℚ), [deadEnemyTen]) ≠ ((0 : ℚ), ([] : List Enemy)) := by
  refine ⟨rfl, rfl, rfl, ?_⟩
  intro h
  simpa using congrArg (fun q => q.2.length) h

/-- C2 amended: on a manager tick every equipped module's `update` is invoked
with exactly the time and the adversary list the manager itself received —
unfiltered and unsorted — once per module. -/
theorem C2_manager_forwards_unchanged (weapons : List WeaponCore) (time : ℚ)
    (enemies : List Enemy) :
    (weaponManagerForward weapons time enemies).length = weapons.length
    ∧ ∀ a ∈ weaponManagerForward weapons time enemies, a = (time, enemies) := by
  constructor
  · simp [weaponManagerForward]
  · intro a ha
    simp only [weaponManagerForward, List.mem_map] at ha
    rcases ha with ⟨_, _, h⟩
    exact h.symm

/-- C2 amended witness: with one module, time 0 and a one-enemy roster the
forwarded pair is exactly the manager's own arguments. -/
theorem C2_manager_forwards_unchanged_witness :
    ((0 : ℚ), [enemyTen]) ∈ weaponManagerForward [⟨1, 5, 15, 1000, 0⟩] 0 [enemyTen]
    ∧ ((0 : ℚ), [enemyTen]) = ((0 : ℚ), [enemyTen]) :=
  ⟨by simp [weaponManagerForward],
    (C2_manager_forwards_unchanged [⟨1, 5, 15, 1000, 0⟩] 0 [enemyTen]).2 _
      (by simp [weaponManagerForward])⟩

/-! ### Synergy evaluator (`WeaponSynergyManager`, weapon.ts lines 3040–3345)

`WeaponType` models the string-literal union of module kinds (the keys of
`WEAPON_MAP`); synergy-rule ids stay strings as in the source.  The display
`name`/`description` strings of the rules carry no behaviour and are
omitted. -/

/-- The module kinds of `WEAPON_MAP`. -/
inductive WeaponType where
  | golden_staff
  | fireproof_cloak
  | ruyi_staff
  | fire_lance
  | wind_tamer
  | violet_bell
  | twin_blades
  | mace
  | bull_horns
  | thunder_drum
  | ice_needle
  | wind_fire_wheels
  | jade_purity_bottle
  | golden_rope
  | plantain_fan
  | three_pointed_blade
  | nine_ring_staff
  | crescent_blade
  | iron_cudgel
  | seven_star_sword
  | ginseng_fruit
  | heaven_earth_circle
  | red_armillary_sash
  | purple_gold_gourd
  | golden_rope_immortal
  | demon_revealing_mirror
  | sea_calming_needle
  | eight_trigrams_furnace
  | dragon_staff
  | seven_treasure_tree
  | immortal_slaying_blade
  | diamond_snare
  | exquisite_pagoda
  | nine_tooth_rake
  | dragon_scale_sword
deriving DecidableEq

/-- The optional per-dimension bonuses of one synergy rule (`effects`). -/
structure SynergyEffects where
  damageBonus : Option ℚ := none
  attackSpeedBonus : Option ℚ := none
  rangeBonus : Option ℚ := none
  critRateBonus : Option ℚ := none
  critDamageBonus : Option ℚ := none
  armorBonus : Option ℚ := none
  allStatsBonus : Option ℚ := none
  healthRegenBonus : Option ℚ := none
  controlDurationBonus : Option ℚ := none

/-- One synergy rule: id, required kinds and bonus vector. -/
structure WeaponSynergyBonus where
  id : String
  weapons : List WeaponType
  effects : SynergyEffects

/-- The static `WEAPON_SYNERGIES` rule table. -/
def WEAPON_SYNERGIES : List WeaponSynergyBonus :=
  [⟨"fire_combo", [.fire_lance, .wind_fire_wheels], { damageBonus := some (3/10) }⟩,
   ⟨"staff_master", [.golden_staff, .ruyi_staff, .sea_calming_needle],
     { attackSpeedBonus := some (3/10) }⟩,
   ⟨"storm_power", [.wind_tamer, .plantain_fan], { rangeBonus := some (1/2) }⟩,
   ⟨"blade_resonance", [.three_pointed_blade, .seven_star_sword],
     { critRateBonus := some (3/20) }⟩,
   ⟨"buddhist_guardian", [.nine_ring_staff, .mace], { armorBonus := some 10 }⟩,
   ⟨"heavy_weapons_master", [.crescent_blade, .iron_cudgel],
     { controlDurationBonus := some (1/2) }⟩,
   ⟨"immortal_protection", [.ginseng_fruit], { healthRegenBonus := some 5 }⟩,
   ⟨"nezha_trinity", [.heaven_earth_circle, .red_armillary_sash, .wind_fire_wheels],
     { allStatsBonus := some (1/10) }⟩,
   ⟨"binding_mastery", [.golden_rope, .golden_rope_immortal],
     { controlDurationBonus := some (1/2) }⟩,
   ⟨"absorption_master", [.purple_gold_gourd, .jade_purity_bottle],
     { damageBonus := some (1/4) }⟩,
   ⟨"weakness_detection", [.demon_revealing_mirror], { critDamageBonus := some (3/10) }⟩]

/-- The per-rule activation test of `checkSynergies(weapons)`: all required
kinds present, or — for a single-kind rule — the kind present and more than
one module equipped (`weapons[0]` of an empty kind list is `undefined` in JS
and `includes(undefined)` is false, modelled by the `[]` match arm). -/
def synergyActive (weaponTypes : List WeaponType) (syn : WeaponSynergyBonus) : Bool :=
  let hasAllWeapons := syn.weapons.all (fun w => weaponTypes.contains w)
  let isSingleWeaponSynergy := syn.weapons.length == 1
  let hasSingleWeapon := isSingleWeaponSynergy &&
    (match syn.weapons with
     | w :: _ => weaponTypes.contains w
     | [] => false)
  hasAllWeapons || (isSingleWeaponSynergy && hasSingleWeapon && decide (1 < weaponTypes.length))

/-- `checkSynergies(weapons)`: the rules of the table active for the equipped
kind set, in table order. -/
def checkSynergies (weaponTypes : List WeaponType) : List WeaponSynergyBonus :=
  WEAPON_SYNERGIES.filter (synergyActive weaponTypes)

/-- The active-rule id set (`this.activeSynergies`) recomputed by
`checkSynergies`. -/
def activeIds (weaponTypes : List WeaponType) : List String :=
  (checkSynergies weaponTypes).map (fun syn => syn.id)

/-- The accumulation shape shared by the getters that read two effect fields
(`bonus += f-field` then `bonus += h(allStats-field)`, each gated on the rule
being active; a JS falsy skip of an absent field is the `none` arm). -/
def sumTwoBonuses (active : List String) (f g : SynergyEffects → Option ℚ)
    (h : ℚ → ℚ) : List WeaponSynergyBonus → ℚ → ℚ
  | [], bonus => bonus
  | syn :: rest, bonus =>
      let b1 :=
        if active.contains syn.id then
          match f syn.effects with
          | some v => bonus + v
          | none => bonus
        else bonus
      let b2 :=
        if active.contains syn.id then
          match g syn.effects with
          | some v => b1 + h v
          | none => b1
        else b1
      sumTwoBonuses active f g h rest b2

/-- The accumulation shape shared by the getters that read one effect field. -/
def sumOneBonus (active : List String) (f : SynergyEffects → Option ℚ) :
    List WeaponSynergyBonus → ℚ → ℚ
  | [], bonus => bonus
  | syn :: rest, bonus =>
      let b1 :=
        if active.contains syn.id then
          match f syn.effects with
          | some v => bonus + v
          | none => bonus
        else bonus
      sumOneBonus active f rest b1

/-- `getDamageBonus()`: damage plus all-stats contributions of active rules. -/
def getDamageBonus (active : List String) : ℚ :=
  sumTwoBonuses active (fun e => e.damageBonus) (fun e => e.allStatsBonus)
    (fun v => v) WEAPON_SYNERGIES 0

/-- `getAttackSpeedBonus()`: attack-speed plus all-stats contributions. -/
def getAttackSpeedBonus (active : List String) : ℚ :=
  sumTwoBonuses active (fun e => e.attackSpeedBonus) (fun e => e.allStatsBonus)
    (fun v => v) WEAPON_SYNERGIES 0

/-- `getRangeBonus()`: range contributions only. -/
def getRangeBonus (active : List String) : ℚ :=
  sumOneBonus active (fun e => e.rangeBonus) WEAPON_SYNERGIES 0

/-- `getCritRateBonus()`: crit-rate contributions only. -/
def getCritRateBonus (active : List String) : ℚ :=
  sumOneBonus active (fun e => e.critRateBonus) WEAPON_SYNERGIES 0

/-- `getCritDamageBonus()`: crit-damage contributions only. -/
def getCritDamageBonus (active : List String) : ℚ :=
  sumOneBonus active (fun e => e.critDamageBonus) WEAPON_SYNERGIES 0

/-- `getArmorBonus()`: armor contributions plus all-stats converted at the
fixed ×10 factor (`allStatsBonus * 10`). -/
def getArmorBonus (active : List String) : ℚ :=
  sumTwoBonuses active (fun e => e.armorBonus) (fun e => e.allStatsBonus)
    (fun v => v * 10) WEAPON_SYNERGIES 0

/-- `getHealthRegenBonus()`: health-regen contributions only. -/
def getHealthRegenBonus (active : List String) : ℚ :=
  sumOneBonus active (fun e => e.healthRegenBonus) WEAPON_SYNERGIES 0

/-- `getControlDurationBonus()`: control-duration contributions only. -/
def getControlDurationBonus (active : List String) : ℚ :=
  sumOneBonus active (fun e => e.controlDurationBonus) WEAPON_SYNERGIES 0

/-- The contribution one rule makes through one effect field, post-composed
with `h`, when the rule is active. -/
def effectContribution (active : List String) (f : SynergyEffects → Option ℚ)
    (h : ℚ → ℚ) (syn : WeaponSynergyBonus) : ℚ :=
  if active.contains syn.id then
    match f syn.effects with
    | some v => h v
    | none => 0
  else 0

/-- The total contribution of one effect field over the rule table. -/
def effectTotal (active : List String) (f : SynergyEffects → Option ℚ) : ℚ :=
  (WEAPON_SYNERGIES.map (effectContribution active f (fun v => v))).sum

/-- Closed form of the one-field accumulation. -/
theorem sumOneBonus_eq (active : List String) (f : SynergyEffects → Option ℚ)
    (t : List WeaponSynergyBonus) (b : ℚ) :
    sumOneBonus active f t b = b + (t.map (effectContribution active f (fun v => v))).sum := by
  induction t generalizing b with
  | nil => simp [sumOneBonus]
  | cons syn rest ih =>
      rw [sumOneBonus, ih]
      simp only [effectContribution, List.map_cons, List.sum_cons]
      cases hf : f syn.effects <;> split <;> simp <;> ring

/-- Closed form of the two-field accumulation. -/
theorem sumTwoBonuses_eq (active : List String) (f g : SynergyEffects → Option ℚ)
    (h : ℚ → ℚ) (t : List WeaponSynergyBonus) (b : ℚ) :
    sumTwoBonuses active f g h t b
      = b + (t.map (effectContribution active f (fun v => v))).sum
          + (t.map (effectContribution active g h)).sum := by
  induction t generalizing b with
  | nil => simp [sumTwoBonuses]
  | cons syn rest ih =>
      rw [sumTwoBonuses, ih]
      simp only [effectContribution, List.map_cons, List.sum_cons]
      cases hf : f syn.effects <;> cases hg : g syn.effects <;> split <;> simp <;> ring

/-- The ×10-scaled all-stats total is ten times the plain one. -/
theorem effectTotal_scale (active : List String) (f : SynergyEffects → Option ℚ) :
    (WEAPON_SYNERGIES.map (effectContribution active f (fun v => v * 10))).sum
      = 10 * effectTotal active f := by
  unfold effectTotal
  induction WEAPON_SYNERGIES with
  | nil => simp
  | cons syn rest ih =>
      simp only [List.map_cons, List.sum_cons, ih]
      have : effectContribution active f (fun v => v * 10) syn
          = 10 * effectContribution active f (fun v => v) syn := by
        unfold effectContribution
        cases f syn.effects <;> split <;> simp <;> ring
      rw [this]
      ring

/-- C1 corrected: for every active-rule set, the damage and attack-speed
getters add the all-stats contributions in, the armor getter adds them at the
fixed ×10 conversion, and the range, crit-rate, crit-damage, health-regen and
control-duration getters sum only their own field — the all-stats bonus does
not fold into those five. -/
theorem C1_getters_allstats (active : List String) :
    getDamageBonus active
        = effectTotal active (fun e => e.damageBonus) + effectTotal active (fun e => e.allStatsBonus)
    ∧ getAttackSpeedBonus active
        = effectTotal active (fun e => e.attackSpeedBonus)
            + effectTotal active (fun e => e.allStatsBonus)
    ∧ getArmorBonus active
        = effectTotal active (fun e => e.armorBonus)
            + 10 * effectTotal active (fun e => e.allStatsBonus)
    ∧ getRangeBonus active = effectTotal active (fun e => e.rangeBonus)
    ∧ getCritRateBonus active = effectTotal active (fun e => e.critRateBonus)
    ∧ getCritDamageBonus active = effectTotal active (fun e => e.critDamageBonus)
    ∧ getHealthRegenBonus active = effectTotal active (fun e => e.healthRegenBonus)
    ∧ getControlDurationBonus active = effectTotal active (fun e => e.controlDurationBonus) := by
  refine ⟨?_, ?_, ?_, ?_, ?_, ?_, ?_, ?_⟩
  · rw [getDamageBonus, sumTwoBonuses_eq]
    simp [effectTotal]
  · rw [getAttackSpeedBonus, sumTwoBonuses_eq]
    simp [effectTotal]
  · rw [getArmorBonus, sumTwoBonuses_eq, effectTotal_scale]
    simp [effectTotal]
  · rw [getRangeBonus, sumOneBonus_eq]
    simp [effectTotal]
  · rw [getCritRateBonus, sumOneBonus_eq]
    simp [effectTotal]
  · rw [getCritDamageBonus, sumOneBonus_eq]
    simp [effectTotal]
  · rw [getHealthRegenBonus, sumOneBonus_eq]
    simp [effectTotal]
  · rw [getControlDurationBonus, sumOneBonus_eq]
    simp [effectTotal]

/-- C1 counterexample: with exactly the Nezha trinity equipped, only the
all-stats rule (bonus 10%) is active; the damage getter receives that 10%,
but the range, crit-rate, crit-damage, health-regen and control-duration
getters all return 0 — the all-stats contribution is not included in their
sums, refuting "every per-dimension getter includes it". -/
theorem C1_counterexample :
    activeIds [.heaven_earth_circle, .red_armillary_sash, .wind_fire_wheels]
        = ["nezha_trinity"]
    ∧ getDamageBonus ["nezha_trinity"] = 1/10
    ∧ getArmorBonus ["nezha_trinity"] = 1
    ∧ getRangeBonus ["nezha_trinity"] = 0
    ∧ getCritRateBonus ["nezha_trinity"] = 0
    ∧ getCritDamageBonus ["nezha_trinity"] = 0
    ∧ getHealthRegenBonus ["nezha_trinity"] = 0
    ∧ getControlDurationBonus ["nezha_trinity"] = 0 := by
  refine ⟨by decide, ?_, ?_, ?_, ?_, ?_, ?_, ?_⟩ <;>
    simp [getDamageBonus, getArmorBonus, getRangeBonus, getCritRateBonus, getCritDamageBonus,
      getHealthRegenBonus, getControlDurationBonus, sumOneBonus, sumTwoBonuses,
      WEAPON_SYNERGIES]

/-- C3 counterexample: equipping only the ginseng fruit — no other module —
already activates the single-kind rule `immortal_protection`, because the
all-kinds check passes for a singleton kind list; this refutes "active iff
the kind is equipped and at least one other module is also equipped". -/
theorem C3_counterexample :
    activeIds [.ginseng_fruit] = ["immortal_protection"]
    ∧ ([WeaponType.ginseng_fruit]).length = 1 := by
  refine ⟨?_, ?_⟩ <;> decide

/-- C3 corrected: a synergy rule is active exactly when all its required
kinds are equipped — for single-kind rules the "any other module present"
clause is subsumed by the all-kinds check, so the kind alone suffices.  The
multi-kind direction of the claim holds, as does scenario E for the
{fire lance, wind-fire wheels} rule: equipping exactly those two activates
`fire_combo`, and recomputing after removing one deactivates it. -/
theorem C3_rule_activation :
    (∀ (weaponTypes : List WeaponType) (syn : WeaponSynergyBonus),
      synergyActive weaponTypes syn = true
        ↔ syn.weapons.all (fun w => weaponTypes.contains w) = true)
    ∧ activeIds [.fire_lance, .wind_fire_wheels] = ["fire_combo"]
    ∧ activeIds [.fire_lance] = [] := by
  refine ⟨?_, by decide, by decide⟩
  intro weaponTypes syn
  unfold synergyActive
  rcases hw : syn.weapons with _ | ⟨w, rest⟩
  · simp
  · rcases rest with _ | ⟨w2, rest2⟩
    · by_cases hmem : weaponTypes.contains w <;> simp [hmem] <;> exact fun h _ => h
    · simp

/-- C1 amended witness: the range getter at the active all-stats rule sums
only its own field. -/
theorem C1_getters_allstats_witness :
    getRangeBonus ["nezha_trinity"] = effectTotal ["nezha_trinity"] (fun e => e.rangeBonus) :=
  (C1_getters_allstats ["nezha_trinity"]).2.2.2.1

/-- C3 amended witness: the all-kinds characterization applied to the
`fire_combo` rule with exactly its two kinds equipped. -/
theorem C3_rule_activation_witness :
    synergyActive [WeaponType.fire_lance, WeaponType.wind_fire_wheels]
      ⟨"fire_combo", [.fire_lance, .wind_fire_wheels], { damageBonus := some (3/10) }⟩
      = true :=
  (C3_rule_activation.1 _ _).mpr (by decide)

/-- C7 amended witness: the inherited update of a cooldown-1000 module whose
timer is at 0 fires at time 1000. -/
theorem C7_cooldown_gate_witness :
    (weaponUpdateCore ⟨1, 5, 15, 1000, 0⟩ 1000).2 = true :=
  (C7_cooldown_gate.1 ⟨1, 5, 15, 1000, 0⟩ 1000).1.mpr (by norm_num)

end WukongSurvivors
